import Mathlib

/-!
Verification of the single-flight background task runner of
`aeco-patch-configurator-gui` (src/main.rs), shallowly embedded in Lean.

The embedding follows the Rust source:
* `MessageToGUI` is the message type the worker thread sends back.
* `PatchConfigApp` is the application state; the mpsc receiver `worker_rx`
  is modelled by an `Option Unit` (presence of the TaskHandle); what
  `try_recv` would return at a given poll is an input of `check_config_worker`
  (`TryRecvResult`), since it depends on the concurrently running worker.
* Side effects are made explicit: `eprintln!` lines are returned as a
  `List String` of log lines, and `thread::spawn` is recorded as an
  `Option WorkerSpawn` holding the values moved into the new thread.
* Rust `PathBuf::push` (Unix) is modelled by `pathPush`.
-/

/-- The typed error of the external `aeco_patch_config::generate_config`
collaborator, modelled opaquely by its display text. -/
structure PatchConfigError where
  msg : String
deriving DecidableEq

/-- `Display` of a `PatchConfigError` (`why.to_string()` in the source). -/
def PatchConfigError.toString (e : PatchConfigError) : String := e.msg

/-- Messages which the worker thread (for generating configs) can send back to
the GUI about the result of the operation (src/main.rs lines 11-14). -/
inductive MessageToGUI
  | Complete
  | Error (why : PatchConfigError)
deriving DecidableEq

/-- The three distinguishable results of `mpsc::Receiver::try_recv`. -/
inductive TryRecvResult
  | ok (m : MessageToGUI)
  | empty
  | disconnected
deriving DecidableEq

/-- The application state (src/main.rs lines 16-22).  `worker_rx` keeps only
the presence of the receiver end: the channel's content at a poll is supplied
to `check_config_worker` as a `TryRecvResult`. -/
structure PatchConfigApp where
  patch_folder : String
  patch_output_folder : String
  state_message : String
  worker_rx : Option Unit
  needs_repaint : Bool
deriving DecidableEq

/-- The values moved into a newly spawned worker thread: the two owned path
buffers handed to `generate_config`. -/
structure WorkerSpawn where
  input_dir : String
  output_dir : String
deriving DecidableEq

/-- `PatchConfigApp::new` (src/main.rs lines 25-33). -/
def PatchConfigApp.new : PatchConfigApp :=
  { patch_folder := ""
    patch_output_folder := ""
    state_message := ""
    worker_rx := none
    needs_repaint := false }

/-- `PatchConfigApp::set_message` (src/main.rs lines 106-109): store the
status text and request a repaint. -/
def set_message (app : PatchConfigApp) (message : String) : PatchConfigApp :=
  { app with state_message := message, needs_repaint := true }

/-- Whether a path begins with the separator, i.e. is absolute (Unix). -/
def pathIsAbsolute (p : String) : Bool :=
  match p.data with
  | [] => false
  | c :: _ => c == '/'

/-- Whether a path already ends with the separator. -/
def pathEndsWithSep (p : String) : Bool :=
  match p.data.getLast? with
  | some c => c == '/'
  | none => false

/-- Model of `PathBuf::push` on Unix: an absolute path replaces the buffer,
otherwise the path is appended, inserting a separator unless the buffer is
empty or already ends with one. -/
def pathPush (buf p : String) : String :=
  if pathIsAbsolute p then p
  else if buf.data.isEmpty then p
  else if pathEndsWithSep buf then buf ++ p
  else buf ++ "/" ++ p

/-- `PatchConfigApp::start_config_worker` (src/main.rs lines 37-70).  Returns
the new state together with the spawned worker thread's arguments (`none`
when no thread was spawned).  The fresh channel's consumer end is retained as
`worker_rx`. -/
def start_config_worker (app : PatchConfigApp) (input_dir output_dir : String) :
    PatchConfigApp × Option WorkerSpawn :=
  if app.worker_rx.isSome then
    (app, none)
  else
    ({ set_message app "Working..." with worker_rx := some () },
      some { input_dir := input_dir, output_dir := output_dir })

/-- The `Display` text of `mpsc::SendError` used by `eprintln!` in the worker
thread body. -/
def sendFailureLog : String :=
  "Could not send worker response back to GUI: sending on a closed channel"

/-- The message the worker builds from the result of `generate_config`
(src/main.rs lines 61-64). -/
def messageOf : Except PatchConfigError Unit → MessageToGUI
  | Except.ok _ => MessageToGUI.Complete
  | Except.error why => MessageToGUI.Error why

/-- `mpsc::Sender::send`: fails (returning the unsent message) exactly when
the consumer end has been dropped. -/
def channel_send (consumerAlive : Bool) (m : MessageToGUI) :
    Except MessageToGUI Unit :=
  if consumerAlive then Except.ok () else Except.error m

/-- The body of the thread spawned by `start_config_worker`
(src/main.rs lines 56-69), given the result of `generate_config` and whether
the consumer end of the channel is still alive.  Returns the message
delivered into the channel (`none` when the send failed) together with the
stderr log lines. -/
def worker_thread (result : Except PatchConfigError Unit) (consumerAlive : Bool) :
    Option MessageToGUI × List String :=
  let message := messageOf result
  match channel_send consumerAlive message with
  | Except.ok _ => (some message, [])
  | Except.error _ => (none, [sendFailureLog])

/-- `PatchConfigApp::check_config_worker` (src/main.rs lines 74-103), the
poll.  `recv` is what `try_recv` on the stored receiver returns at this tick;
it is consulted only when a receiver exists.  Returns the new state and the
stderr log lines. -/
def check_config_worker (app : PatchConfigApp) (recv : TryRecvResult) :
    PatchConfigApp × List String :=
  match app.worker_rx with
  | none => (app, [])
  | some _ =>
    match recv with
    | TryRecvResult.empty => (app, [])
    | TryRecvResult.disconnected =>
        (app, ["The worker channel has disconnected."])
    | TryRecvResult.ok message =>
      match message with
      | MessageToGUI.Complete =>
          ({ set_message app "Finished!" with worker_rx := none }, [])
      | MessageToGUI.Error why =>
          ({ set_message app ("Failled to generate output: " ++ why.toString)
              with worker_rx := none }, [])

/-- `PatchConfigApp::generate_button` (src/main.rs lines 111-126): the user
trigger.  `clicked` is whether the button was clicked this tick. -/
def generate_button (app : PatchConfigApp) (clicked : Bool) :
    PatchConfigApp × Option WorkerSpawn :=
  if clicked then
    if app.worker_rx.isNone then
      let output_dir := pathPush (pathPush "" app.patch_output_folder) "aeco-patch"
      let input_dir := app.patch_folder
      start_config_worker app input_dir output_dir
    else
      (set_message app "Generation already in progress.", none)
  else
    (app, none)

/-- Fold a sequence of trigger/start requests through `start_config_worker`,
collecting every worker thread that gets spawned. -/
def runStarts : PatchConfigApp → List (String × String) → PatchConfigApp × List WorkerSpawn
  | app, [] => (app, [])
  | app, r :: rest =>
    let step := start_config_worker app r.fst r.snd
    let next := runStarts step.fst rest
    (next.fst, step.snd.toList ++ next.snd)

/-- Fold a sequence of polls through `check_config_worker`, collecting the
log lines. -/
def runChecks : PatchConfigApp → List TryRecvResult → PatchConfigApp × List String
  | app, [] => (app, [])
  | app, r :: rest =>
    let step := check_config_worker app r
    let next := runChecks step.fst rest
    (next.fst, step.snd ++ next.snd)

/-- A sample state with a running worker (TaskHandle present). -/
def appRun0 : PatchConfigApp :=
  { patch_folder := "in"
    patch_output_folder := "out"
    state_message := "msg"
    worker_rx := some ()
    needs_repaint := false }

/-- A sample idle state (no TaskHandle). -/
def appIdle0 : PatchConfigApp :=
  { patch_folder := "in"
    patch_output_folder := "out"
    state_message := ""
    worker_rx := none
    needs_repaint := false }

/-! ## Claims -/

/-- C1 counterexample: in a running state whose channel reports
`Disconnected` (producer dropped without sending), `check_config_worker` does
NOT clear the TaskHandle — `worker_rx` stays `some` — and no synthesized
internal-failure Outcome is surfaced: the status message is unchanged. -/
theorem check_disconnected_counterexample :
    (check_config_worker appRun0 TryRecvResult.disconnected).fst.worker_rx ≠ none
    ∧ (check_config_worker appRun0 TryRecvResult.disconnected).fst.state_message = "msg" :=
  ⟨by decide, rfl⟩

/-- C1 (amended): when the channel reports the producer end dropped without a
value having been sent, poll only logs "The worker channel has disconnected."
and returns with the whole state — in particular the TaskHandle `worker_rx` —
unchanged, so the consumer stays in Running. -/
theorem check_disconnected_keeps_state (app : PatchConfigApp)
    (h : app.worker_rx = some ()) :
    check_config_worker app TryRecvResult.disconnected
      = (app, ["The worker channel has disconnected."]) := by
  obtain ⟨pf, pof, sm, wrx, nr⟩ := app
  obtain rfl : wrx = some () := h
  rfl

/-- C1 witness: the amended behaviour at the concrete running state. -/
theorem check_disconnected_keeps_state_witness :
    appRun0.worker_rx = some ()
    ∧ check_config_worker appRun0 TryRecvResult.disconnected
        = (appRun0, ["The worker channel has disconnected."]) :=
  ⟨rfl, check_disconnected_keeps_state appRun0 rfl⟩

/-- C2: single-flight.  While a TaskHandle exists (`worker_rx` is `some`),
any `start_config_worker` call is a complete no-op — state unchanged, no
thread spawned — and hence any sequence of start calls changes nothing and
spawns no worker at all; nothing is queued. -/
theorem start_single_flight (app : PatchConfigApp)
    (h : app.worker_rx = some ()) :
    (∀ i o, start_config_worker app i o = (app, none))
    ∧ ∀ reqs, runStarts app reqs = (app, []) := by
  have h1 : ∀ i o, start_config_worker app i o = (app, none) := by
    intro i o
    simp [start_config_worker, h]
  refine ⟨h1, fun reqs => ?_⟩
  induction reqs with
  | nil => rfl
  | cons r rest ih => simp [runStarts, h1, ih]

/-- C2 witness: single-flight at the concrete running state, for one call and
for a two-request sequence. -/
theorem start_single_flight_witness :
    appRun0.worker_rx = some ()
    ∧ start_config_worker appRun0 "x" "y" = (appRun0, none)
    ∧ runStarts appRun0 [("x", "y"), ("", "")] = (appRun0, []) :=
  ⟨rfl, (start_single_flight appRun0 rfl).1 "x" "y",
    (start_single_flight appRun0 rfl).2 [("x", "y"), ("", "")]⟩

/-- C3: draining a terminal Outcome.  When a TaskHandle exists and `try_recv`
yields a message, poll clears `worker_rx` (transition to Idle) and sets the
status to "Finished!" on `Complete`, or on `Error why` to a formatted failure
message carrying `why`'s display text intact (as a suffix). -/
theorem poll_terminal_outcome (app : PatchConfigApp) (why : PatchConfigError)
    (h : app.worker_rx = some ()) :
    ((check_config_worker app (TryRecvResult.ok MessageToGUI.Complete)).fst.worker_rx = none
      ∧ (check_config_worker app (TryRecvResult.ok MessageToGUI.Complete)).fst.state_message
          = "Finished!")
    ∧ ((check_config_worker app (TryRecvResult.ok (MessageToGUI.Error why))).fst.worker_rx = none
      ∧ (check_config_worker app (TryRecvResult.ok (MessageToGUI.Error why))).fst.state_message
          = "Failled to generate output: " ++ why.toString
      ∧ ∃ s, (check_config_worker app (TryRecvResult.ok (MessageToGUI.Error why))).fst.state_message
          = s ++ why.toString) := by
  obtain ⟨pf, pof, sm, wrx, nr⟩ := app
  obtain rfl : wrx = some () := h
  exact ⟨⟨rfl, rfl⟩, rfl, rfl, ⟨"Failled to generate output: ", rfl⟩⟩

/-- C3 witness: draining at the concrete running state with error text
"disk full". -/
theorem poll_terminal_outcome_witness :
    appRun0.worker_rx = some ()
    ∧ (((check_config_worker appRun0 (TryRecvResult.ok MessageToGUI.Complete)).fst.worker_rx = none
      ∧ (check_config_worker appRun0 (TryRecvResult.ok MessageToGUI.Complete)).fst.state_message
          = "Finished!")
    ∧ ((check_config_worker appRun0
          (TryRecvResult.ok (MessageToGUI.Error ⟨"disk full"⟩))).fst.worker_rx = none
      ∧ (check_config_worker appRun0
          (TryRecvResult.ok (MessageToGUI.Error ⟨"disk full"⟩))).fst.state_message
          = "Failled to generate output: " ++ PatchConfigError.toString ⟨"disk full"⟩
      ∧ ∃ s, (check_config_worker appRun0
          (TryRecvResult.ok (MessageToGUI.Error ⟨"disk full"⟩))).fst.state_message
          = s ++ PatchConfigError.toString ⟨"disk full"⟩)) :=
  ⟨rfl, poll_terminal_outcome appRun0 ⟨"disk full"⟩ rfl⟩

/-- C4 counterexample: a trigger while Running does change state beyond the
status message — `set_message` also flips `needs_repaint` to `true`, so at a
running state with `needs_repaint = false` the field changes. -/
theorem trigger_running_counterexample :
    (generate_button appRun0 true).fst.needs_repaint ≠ appRun0.needs_repaint := by
  decide

/-- C4 (amended): on a user trigger while a task is Running, no new task is
started (no thread is spawned) and the status message is set to
"Generation already in progress."; all other state is unchanged except
`needs_repaint`, which `set_message` sets to `true`. -/
theorem trigger_running_advisory (app : PatchConfigApp)
    (h : app.worker_rx = some ()) :
    generate_button app true
      = ({ app with
            state_message := "Generation already in progress."
            needs_repaint := true }, none) := by
  obtain ⟨pf, pof, sm, wrx, nr⟩ := app
  obtain rfl : wrx = some () := h
  rfl

/-- C4 witness: the amended behaviour at the concrete running state. -/
theorem trigger_running_advisory_witness :
    appRun0.worker_rx = some ()
    ∧ generate_button appRun0 true
        = ({ appRun0 with
              state_message := "Generation already in progress."
              needs_repaint := true }, none) :=
  ⟨rfl, trigger_running_advisory appRun0 rfl⟩

/-- C5 counterexample: from the idle state, a trigger sets the status to the
ASCII string "Working..." — not the claimed string "Working…" (which ends in
the single Unicode ellipsis character). -/
theorem trigger_idle_message_counterexample :
    (generate_button appIdle0 true).fst.state_message = "Working..."
    ∧ (generate_button appIdle0 true).fst.state_message ≠ "Working…" :=
  ⟨rfl, by decide⟩

/-- C5 (amended): while no TaskHandle exists, `start_config_worker` accepts
the start: the status becomes "Working..." (ASCII dots), the consumer end of
a fresh channel is stored as the new `worker_rx`, and a new thread is spawned
owning copies of the two path inputs. -/
theorem start_idle_accepts (app : PatchConfigApp) (i o : String)
    (h : app.worker_rx = none) :
    start_config_worker app i o
      = ({ app with
            state_message := "Working..."
            needs_repaint := true
            worker_rx := some () },
          some { input_dir := i, output_dir := o }) := by
  obtain ⟨pf, pof, sm, wrx, nr⟩ := app
  obtain rfl : wrx = none := h
  rfl

/-- C5 witness: the amended behaviour at the concrete idle state. -/
theorem start_idle_accepts_witness :
    appIdle0.worker_rx = none
    ∧ start_config_worker appIdle0 "a" "b"
        = ({ appIdle0 with
              state_message := "Working..."
              needs_repaint := true
              worker_rx := some () },
            some { input_dir := "a", output_dir := "b" }) :=
  ⟨rfl, start_idle_accepts appIdle0 "a" "b" rfl⟩

/-- Pushing the relative component "aeco-patch" always appends it to the end
of the buffer. -/
theorem pathPush_appends (buf : String) :
    ∃ base, pathPush buf "aeco-patch" = base ++ "aeco-patch" := by
  unfold pathPush
  have habs : pathIsAbsolute "aeco-patch" = false := rfl
  rw [habs]
  by_cases hb : buf.data.isEmpty = true
  · rw [if_neg (by decide), if_pos hb]
    exact ⟨"", by decide⟩
  · rw [if_neg (by decide), if_neg hb]
    by_cases hs : pathEndsWithSep buf = true
    · rw [if_pos hs]
      exact ⟨buf, rfl⟩
    · rw [if_neg hs]
      exact ⟨buf ++ "/", rfl⟩

/-- C6: from an idle state, the trigger hands the spawned worker the user's
source directory input unmodified, and as output the user's base output
directory with the fixed subdirectory name "aeco-patch" pushed onto it; the
pushed name always ends up appended to the output path. -/
theorem trigger_passes_paths (app : PatchConfigApp)
    (h : app.worker_rx = none) :
    (generate_button app true).snd
        = some { input_dir := app.patch_folder,
                 output_dir := pathPush (pathPush "" app.patch_output_folder) "aeco-patch" }
      ∧ ∃ base, pathPush (pathPush "" app.patch_output_folder) "aeco-patch"
          = base ++ "aeco-patch" := by
  refine ⟨?_, pathPush_appends _⟩
  obtain ⟨pf, pof, sm, wrx, nr⟩ := app
  obtain rfl : wrx = none := h
  rfl

/-- C6 witness: the paths handed over at the concrete idle state. -/
theorem trigger_passes_paths_witness :
    appIdle0.worker_rx = none
    ∧ ((generate_button appIdle0 true).snd
        = some { input_dir := appIdle0.patch_folder,
                 output_dir := pathPush (pathPush "" appIdle0.patch_output_folder) "aeco-patch" }
      ∧ ∃ base, pathPush (pathPush "" appIdle0.patch_output_folder) "aeco-patch"
          = base ++ "aeco-patch") :=
  ⟨rfl, trigger_passes_paths appIdle0 rfl⟩

/-- C7: idempotent idle poll.  While no TaskHandle exists, a poll returns the
state unchanged with no output, whatever the channel input, and so does any
sequence of repeated polls. -/
theorem idle_poll_idempotent (app : PatchConfigApp)
    (h : app.worker_rx = none) :
    (∀ r, check_config_worker app r = (app, []))
    ∧ ∀ rs, runChecks app rs = (app, []) := by
  have h1 : ∀ r, check_config_worker app r = (app, []) := by
    intro r
    simp [check_config_worker, h]
  refine ⟨h1, fun rs => ?_⟩
  induction rs with
  | nil => rfl
  | cons r rest ih => simp [runChecks, h1, ih]

/-- C7 witness: repeated idle polls at the concrete idle state. -/
theorem idle_poll_idempotent_witness :
    appIdle0.worker_rx = none
    ∧ runChecks appIdle0
        [TryRecvResult.empty, TryRecvResult.disconnected,
          TryRecvResult.ok MessageToGUI.Complete]
        = (appIdle0, []) :=
  ⟨rfl, (idle_poll_idempotent appIdle0 rfl).2
    [TryRecvResult.empty, TryRecvResult.disconnected,
      TryRecvResult.ok MessageToGUI.Complete]⟩

/-- C8: the worker thread body is total and never propagates a failure.  For
every result of the Operation and every channel state it returns normally:
when the consumer end is alive the Outcome built from the result is delivered
intact and nothing is logged; when the consumer end was already discarded the
send failure is only reported on stderr and nothing is delivered — in neither
case does anything escape the thread. -/
theorem worker_thread_total (result : Except PatchConfigError Unit) (alive : Bool) :
    worker_thread result alive
      = if alive then (some (messageOf result), []) else (none, [sendFailureLog]) := by
  cases alive <;> rfl

/-- C9: `set_message m` sets `state_message` to exactly `m`, sets
`needs_repaint` to `true` and leaves `patch_folder`, `patch_output_folder`
and `worker_rx` unchanged; and in every operation of the app, whenever the
status message changes the change went through `set_message` — so the result
has `needs_repaint = true`. -/
theorem set_message_frame :
    (∀ app m, set_message app m
        = { app with state_message := m, needs_repaint := true })
    ∧ (∀ app r, (check_config_worker app r).fst.state_message ≠ app.state_message
        → (check_config_worker app r).fst.needs_repaint = true)
    ∧ (∀ app i o, (start_config_worker app i o).fst.state_message ≠ app.state_message
        → (start_config_worker app i o).fst.needs_repaint = true)
    ∧ (∀ app c, (generate_button app c).fst.state_message ≠ app.state_message
        → (generate_button app c).fst.needs_repaint = true) := by
  have hcheck : ∀ app r, (check_config_worker app r).fst.state_message ≠ app.state_message
      → (check_config_worker app r).fst.needs_repaint = true := by
    intro app r h
    cases hw : app.worker_rx with
    | none => simp [check_config_worker, hw] at h
    | some u =>
      cases r with
      | empty => simp [check_config_worker, hw] at h
      | disconnected => simp [check_config_worker, hw] at h
      | ok m => cases m <;> simp [check_config_worker, set_message, hw]
  have hstart : ∀ app i o, (start_config_worker app i o).fst.state_message ≠ app.state_message
      → (start_config_worker app i o).fst.needs_repaint = true := by
    intro app i o h
    cases hw : app.worker_rx with
    | none => simp [start_config_worker, set_message, hw]
    | some u => simp [start_config_worker, hw] at h
  refine ⟨fun app m => rfl, hcheck, hstart, ?_⟩
  intro app c h
  cases c with
  | false => simp [generate_button] at h
  | true =>
    cases hw : app.worker_rx with
    | none =>
      have h2 : (start_config_worker app app.patch_folder
          (pathPush (pathPush "" app.patch_output_folder) "aeco-patch")).fst.state_message
          ≠ app.state_message := by
        simpa [generate_button, hw] using h
      simpa [generate_button, hw] using hstart app _ _ h2
    | some u => simp [generate_button, set_message, hw]

/-- C10: the trigger validates nothing.  From any idle state the texts of the
two fields are handed to the worker as-is: the input field verbatim, and the
output field with "aeco-patch" pushed onto it; in particular an empty output
field yields the bare relative path "aeco-patch" and an empty input field
yields an empty input path. -/
theorem trigger_no_validation (app : PatchConfigApp)
    (h : app.worker_rx = none) :
    ((generate_button app true).snd
        = some { input_dir := app.patch_folder,
                 output_dir := pathPush (pathPush "" app.patch_output_folder) "aeco-patch" })
    ∧ (app.patch_output_folder = ""
        → (generate_button app true).snd
            = some { input_dir := app.patch_folder, output_dir := "aeco-patch" })
    ∧ (app.patch_folder = ""
        → (generate_button app true).snd
            = some { input_dir := "",
                     output_dir := pathPush (pathPush "" app.patch_output_folder) "aeco-patch" }) := by
  obtain ⟨pf, pof, sm, wrx, nr⟩ := app
  obtain rfl : wrx = none := h
  refine ⟨rfl, ?_, ?_⟩
  · intro h2
    obtain rfl : pof = "" := h2
    rfl
  · intro h2
    obtain rfl : pf = "" := h2
    rfl

/-- C10 witness: with both fields empty, the worker receives the empty input
path and the bare relative output path "aeco-patch". -/
theorem trigger_no_validation_witness :
    PatchConfigApp.new.worker_rx = none
    ∧ ((generate_button PatchConfigApp.new true).snd
        = some { input_dir := PatchConfigApp.new.patch_folder,
                 output_dir := pathPush (pathPush "" PatchConfigApp.new.patch_output_folder)
                   "aeco-patch" }
      ∧ (PatchConfigApp.new.patch_output_folder = ""
          → (generate_button PatchConfigApp.new true).snd
              = some { input_dir := PatchConfigApp.new.patch_folder,
                       output_dir := "aeco-patch" })
      ∧ (PatchConfigApp.new.patch_folder = ""
          → (generate_button PatchConfigApp.new true).snd
              = some { input_dir := "",
                       output_dir := pathPush
                         (pathPush "" PatchConfigApp.new.patch_output_folder) "aeco-patch" })) :=
  ⟨rfl, trigger_no_validation PatchConfigApp.new rfl⟩
